import Mathlib

/-
  Verification of the "Structured Product Pricing" notebook.

  The notebook is a linear sequence of pure numeric computations:
  historical volatility from log returns, a closed-form Black-Scholes
  pricer, a Monte Carlo estimator, Greeks, and a participation-rate /
  strike solver for a structured note.  Machine floating point is
  embedded as the real numbers; the standard normal cdf is the integral
  of the standard normal density.
-/

namespace StructuredProduct

/-- Risk-free rate, `rfr = 0.08` in the notebook. -/
def rfr : ℝ := 0.08

/-- Maturity in years, `maturity = 3` in the notebook. -/
def maturity : ℝ := 3

/-- Normalized last close price of the underlying, `last_close = 1`. -/
def last_close : ℝ := 1

/-- Standard normal density, `NormalDist().pdf` in the notebook. -/
noncomputable def stdNormalPDF (x : ℝ) : ℝ :=
  (Real.sqrt (2 * Real.pi))⁻¹ * Real.exp (-(x ^ 2 / 2))

/-- Standard normal cumulative distribution function,
`NormalDist().cdf` in the notebook. -/
noncomputable def normCDF (x : ℝ) : ℝ :=
  ∫ t in Set.Iic x, stdNormalPDF t

/-- The divisor `s * np.sqrt(T)` of `d1` inside the pricer `BS`. -/
noncomputable def BS_denom (s T : ℝ) : ℝ := s * Real.sqrt T

/-- `d1 = (np.log(S0 / K) + (r + s**2 / 2) * T) / (s * np.sqrt(T))` from `BS`. -/
noncomputable def BS_d1 (S0 K r s T : ℝ) : ℝ :=
  (Real.log (S0 / K) + (r + s ^ 2 / 2) * T) / BS_denom s T

/-- `d2 = d1 - s * np.sqrt(T)` from `BS`. -/
noncomputable def BS_d2 (S0 K r s T : ℝ) : ℝ :=
  BS_d1 S0 K r s T - s * Real.sqrt T

/-- `call = S0 * NormalDist().cdf(d1) - K * np.exp(-r*T) * NormalDist().cdf(d2)`
from `BS`. -/
noncomputable def BS_call (S0 K r s T : ℝ) : ℝ :=
  S0 * normCDF (BS_d1 S0 K r s T) - K * Real.exp (-r * T) * normCDF (BS_d2 S0 K r s T)

/-- `put = call + K * np.exp(-r*T) - S0` from `BS` (put-call parity by
construction in the source). -/
noncomputable def BS_put (S0 K r s T : ℝ) : ℝ :=
  BS_call S0 K r s T + K * Real.exp (-r * T) - S0

/-- The pricer `BS` returns the pair `(call, put)`. -/
noncomputable def BS (S0 K r s T : ℝ) : ℝ × ℝ :=
  (BS_call S0 K r s T, BS_put S0 K r s T)

/-- Issue price of the note, `p0 = 0.98`. -/
def p0 : ℝ := 0.98

/-- Upfront fee withheld by the bank, `pnl = 0.02`. -/
def pnl : ℝ := 0.02

/-- Treasury rate, `tr_rate = 0.1`. -/
def tr_rate : ℝ := 0.1

/-- Maturity of the note, `T = 3` (equal to `maturity`). -/
def T : ℝ := 3

/-- `call_spread = BS(1, 1, rfr, vol, T)[0] - BS(1, 1.5, rfr, vol, T)[0]`:
value of the embedded call spread.  The volatility is data-derived (the
historical CSV is not part of the sources), so it stays a parameter. -/
noncomputable def call_spread (s : ℝ) : ℝ :=
  BS_call 1 1 rfr s T - BS_call 1 1.5 rfr s T

/-- `k = (p0 - np.exp(-rfr * maturity)) / call_spread`: participation
rate making the client present value zero, as a function of the value
of the call spread. -/
noncomputable def k (sp : ℝ) : ℝ :=
  (p0 - Real.exp (-rfr * maturity)) / sp

/-- Client present value, from the derivation in the notebook markdown:
`PV_client = -0.98 + exp(-rfr T) + k (c_ATM - c_OTM)`. -/
noncomputable def PV_client (sp kp : ℝ) : ℝ :=
  -p0 + Real.exp (-rfr * T) + kp * sp

/-- `PV_bank = p0 - np.exp(-tr_rate * T) - pnl - k * call_spread`. -/
noncomputable def PV_bank (sp kp : ℝ) : ℝ :=
  p0 - Real.exp (-tr_rate * T) - pnl - kp * sp

/-- `c_otm = BS(1, 1, rfr, vol, T)[0] - (p0 - np.exp(-rfr * maturity))`:
required value of the OTM call when the participation rate is fixed at 1. -/
noncomputable def c_otm (s : ℝ) : ℝ :=
  BS_call 1 1 rfr s T - (p0 - Real.exp (-rfr * maturity))

/-- The function handed to the root-finder in mode (b):
`fun x : BS(1, x, rfr, vol, maturity)[0] - c_otm`. -/
noncomputable def rootTarget (s K : ℝ) : ℝ :=
  BS_call 1 K rfr s maturity - c_otm s

/-- Modelled from the spec: the generic 1-D numerical root-finder
(`scipy.optimize.root`, library code outside this repository) returns,
when it converges, a strike at which the handed-in function vanishes. -/
def convergedRoot (s K : ℝ) : Prop := rootTarget s K = 0

/-- The bank present value checked in mode (b):
`p0 - np.exp(-tr_rate*maturity) - pnl - (BS(1, 1, rfr, vol, T)[0] - c_otm)`. -/
noncomputable def PV_bank_b (s : ℝ) : ℝ :=
  p0 - Real.exp (-tr_rate * maturity) - pnl - (BS_call 1 1 rfr s T - c_otm s)

/-- `vega = last_close * np.sqrt(maturity) * NormalDist().pdf(d1)`, in the
shape `S0 * sqrt T * pdf d1` shared by the call and the put. -/
noncomputable def vega (S0 T x : ℝ) : ℝ := S0 * Real.sqrt T * stdNormalPDF x

/-- `d1` of the Greeks section:
`d1 = ((rfr + vol**2 / 2) * maturity) / (vol * np.sqrt(maturity))`
(the ATM `d1`, where `np.log(S0/K) = 0`). -/
noncomputable def greeks_d1 (s : ℝ) : ℝ :=
  ((rfr + s ^ 2 / 2) * maturity) / (s * Real.sqrt maturity)

/-- Arithmetic mean of a list, `np.mean`. -/
noncomputable def listMean (l : List ℝ) : ℝ := l.sum / l.length

/-- Population standard deviation (`np.std`, which uses `ddof = 0`):
the square root of the mean squared deviation from the mean. -/
noncomputable def popStd (l : List ℝ) : ℝ :=
  Real.sqrt (listMean (l.map (fun x => (x - listMean l) ^ 2)))

/-- `np.log(close prices).diff()`: daily log returns, the
first differences of the log of the close series.  The undefined first
element of `diff` (a NaN, which the standard-deviation step skips) is
not materialized: only the defined differences are kept. -/
noncomputable def logReturns (closes : List ℝ) : List ℝ :=
  List.zipWith (fun a b => Real.log b - Real.log a) closes closes.tail

/-- `vol = np.std(returns) * np.sqrt(252)`: annualized historical
volatility as a function of the close-price series (the CSV itself is
not part of the sources). -/
noncomputable def vol (closes : List ℝ) : ℝ :=
  popStd (logReturns closes) * Real.sqrt 252

/-- The closed-form price pair of the notebook, as used downstream of the
volatility computation: `c, p = BS(last_close, last_close, rfr, vol, maturity)`. -/
noncomputable def notebookPrices (closes : List ℝ) : ℝ × ℝ :=
  BS last_close last_close rfr (vol closes) maturity

/-- The call-spread value downstream of the volatility computation. -/
noncomputable def notebookCallSpread (closes : List ℝ) : ℝ :=
  call_spread (vol closes)

/-- The target OTM call value downstream of the volatility computation. -/
noncomputable def notebook_c_otm (closes : List ℝ) : ℝ :=
  c_otm (vol closes)

/-- The vega value downstream of the volatility computation. -/
noncomputable def notebookVega (closes : List ℝ) : ℝ :=
  vega last_close maturity (greeks_d1 (vol closes))

/-- The participation rate downstream of the volatility computation
(cell 40): `k = (p0 - np.exp(-rfr * maturity)) / call_spread` with the
spread priced at the derived volatility. -/
noncomputable def notebook_k (closes : List ℝ) : ℝ :=
  k (call_spread (vol closes))

/-- The mode-(a) bank present value downstream of the volatility
computation (cell 41). -/
noncomputable def notebookPV_bank (closes : List ℝ) : ℝ :=
  PV_bank (call_spread (vol closes)) (k (call_spread (vol closes)))

/-- `ST = last_close * np.exp((rfr - vol**2 / 2) * maturity + vol * epsilon * np.sqrt(maturity))`
for a single draw `e`. -/
noncomputable def terminalPrice (s e : ℝ) : ℝ :=
  last_close * Real.exp ((rfr - s ^ 2 / 2) * maturity + s * e * Real.sqrt maturity)

/-- The vector of simulated terminal prices for a sample `eps` of
standard-normal draws. -/
noncomputable def ST (s : ℝ) (eps : List ℝ) : List ℝ :=
  eps.map (terminalPrice s)

/-- `call_payoffs = np.fmax(0, ST - last_close)`. -/
noncomputable def call_payoffs (st : List ℝ) : List ℝ :=
  st.map (fun x => max 0 (x - last_close))

/-- `put_payoffs = np.fmax(0, last_close - ST)`. -/
noncomputable def put_payoffs (st : List ℝ) : List ℝ :=
  st.map (fun x => max 0 (last_close - x))

/-- `c_mc = np.mean(call_payoffs) * np.exp(-rfr * maturity)`. -/
noncomputable def c_mc (st : List ℝ) : ℝ :=
  listMean (call_payoffs st) * Real.exp (-rfr * maturity)

/-- `p_mc = np.mean(put_payoffs) * np.exp(-rfr * maturity)`. -/
noncomputable def p_mc (st : List ℝ) : ℝ :=
  listMean (put_payoffs st) * Real.exp (-rfr * maturity)

/-- The Monte Carlo terminal-price sample downstream of the volatility
computation (cell 16): `ST` built with the derived volatility. -/
noncomputable def notebookST (closes eps : List ℝ) : List ℝ :=
  ST (vol closes) eps

/-- The Monte Carlo price pair downstream of the volatility computation
(cell 16): `(c_mc, p_mc)` over the sample built with the derived
volatility. -/
noncomputable def notebookMC (closes eps : List ℝ) : ℝ × ℝ :=
  (c_mc (notebookST closes eps), p_mc (notebookST closes eps))

/-- The root-finder target downstream of the volatility computation
(cell 48): `fun x : BS(1, x, rfr, vol, maturity)[0] - c_otm` with the
derived volatility. -/
noncomputable def notebookRootTarget (closes : List ℝ) (K : ℝ) : ℝ :=
  rootTarget (vol closes) K

/-- The mode-(b) bank present value downstream of the volatility
computation (cell 49). -/
noncomputable def notebookPV_bank_b (closes : List ℝ) : ℝ :=
  PV_bank_b (vol closes)

/-- Modelled from the spec: `default_rng(seed=42).normal(size=10000)`
constructs a fresh generator from the explicit seed alone.  The
bit-level generator (numpy PCG64) is library code outside this
repository, so the normal draw is abstracted as a function of the seed,
and the ambient global random state is passed explicitly so that the
independence of the pipeline from it can be stated. -/
noncomputable def mcEstimates (normalsOfSeed : ℕ → List ℝ)
    (globalRngState : ℕ) (seed : ℕ) (s : ℝ) : ℝ × ℝ :=
  let eps := normalsOfSeed seed
  let st := ST s eps
  (c_mc st, p_mc st)

/-- Modelled from the spec: the result object of `scipy.optimize.root`
(library code outside this repository) carries the final iterate `x` and
a convergence flag `success`; non-convergence is signalled through the
flag, not by raising. -/
structure OptimizeResult where
  x : ℝ
  success : Bool

/-- How the notebook consumes the root-finder result: it reads `.x[0]`
unconditionally, never inspecting the convergence flag. -/
def notebookStrike (res : OptimizeResult) : ℝ := res.x

/-- The wording of the spec, for comparison: non-convergence is "reported as an
error to the caller", i.e. a failed result yields no strike. -/
def specStrike (res : OptimizeResult) : Option ℝ :=
  if res.success then some res.x else none

end StructuredProduct

namespace StructuredProduct

/-- The discount-factor gap covers the fee:
`exp (-rfr * maturity) - exp (-tr_rate * T) ≥ pnl`, i.e.
`exp (-0.24) - exp (-0.3) ≥ 0.02`. -/
lemma discount_gap_ge_fee :
    pnl ≤ Real.exp (-rfr * maturity) - Real.exp (-tr_rate * T) := by
  have e1 : -rfr * maturity = (-0.24 : ℝ) := by
    unfold rfr maturity; norm_num
  have e2 : -tr_rate * T = (-0.3 : ℝ) := by
    unfold tr_rate T; norm_num
  rw [e1, e2]
  have h1 : (0.06 : ℝ) ≤ Real.exp 0.06 - 1 := by
    have := Real.add_one_le_exp (0.06 : ℝ); linarith
  have h2 : (0.7 : ℝ) ≤ Real.exp (-0.3) := by
    have := Real.add_one_le_exp (-0.3 : ℝ); linarith
  have h3 : Real.exp (-0.3) * Real.exp 0.06 = Real.exp (-0.24) := by
    rw [← Real.exp_add]; norm_num
  have hp : (0 : ℝ) < Real.exp (-0.3) := Real.exp_pos _
  unfold pnl
  nlinarith

/-- C1: Put-call parity: for every valid input with `S0, K, s, T` positive,
the call and put returned by `BS` satisfy `call - put = S0 - K * exp (-r*T)`. -/
theorem putCallParity (S0 K r s T : ℝ) (hS0 : 0 < S0) (hK : 0 < K)
    (hs : 0 < s) (hT : 0 < T) :
    (BS S0 K r s T).1 - (BS S0 K r s T).2 = S0 - K * Real.exp (-r * T) := by
  unfold BS BS_put
  ring

/-- Witness for C1 at the concrete input `S0 = K = r = s = T = 1`. -/
theorem putCallParity_witness :
    (BS 1 1 1 1 1).1 - (BS 1 1 1 1 1).2 = 1 - 1 * Real.exp (-1 * 1) :=
  putCallParity 1 1 1 1 1 one_pos one_pos one_pos one_pos

/-- C5: the divisor of the pricer, `s * sqrt T` is nonzero whenever `s, T > 0`
(so `d1` is the genuine quotient there), and it vanishes exactly in the
undefined cases `s = 0` or `T = 0`. -/
theorem BS_denom_safety (S0 K r s T : ℝ) :
    (0 < s → 0 < T →
      BS_denom s T ≠ 0 ∧
        BS_d1 S0 K r s T * BS_denom s T =
          Real.log (S0 / K) + (r + s ^ 2 / 2) * T) ∧
    (s = 0 ∨ T = 0 → BS_denom s T = 0) := by
  constructor
  · intro hs hT
    have hden : BS_denom s T ≠ 0 := by
      unfold BS_denom
      exact mul_ne_zero (ne_of_gt hs) (ne_of_gt (Real.sqrt_pos.mpr hT))
    refine ⟨hden, ?_⟩
    unfold BS_d1
    exact div_mul_cancel₀ _ hden
  · rintro (hs | hT)
    · unfold BS_denom; rw [hs, zero_mul]
    · unfold BS_denom; rw [hT, Real.sqrt_zero, mul_zero]

/-- Witness for C5 at `s = T = 1` (and the degenerate case `s = 0`). -/
theorem BS_denom_safety_witness :
    BS_denom 1 1 ≠ 0 ∧ BS_denom 0 1 = 0 :=
  ⟨((BS_denom_safety 1 1 1 1 1).1 one_pos one_pos).1,
    (BS_denom_safety 1 1 1 0 1).2 (Or.inl rfl)⟩

/-- C7: vega is `S0 * sqrt T * pdf d1`, a single value shared by call and
put, and it is nonnegative for every valid input with `S0, T > 0`. -/
theorem vega_nonneg (S0 T x : ℝ) (hS0 : 0 < S0) (hT : 0 < T) :
    0 ≤ vega S0 T x ∧ vega S0 T x = S0 * Real.sqrt T * stdNormalPDF x := by
  refine ⟨?_, rfl⟩
  unfold vega stdNormalPDF
  have h1 : 0 ≤ Real.sqrt T := Real.sqrt_nonneg T
  have h2 : 0 ≤ (Real.sqrt (2 * Real.pi))⁻¹ :=
    inv_nonneg.mpr (Real.sqrt_nonneg _)
  have h3 : 0 < Real.exp (-(x ^ 2 / 2)) := Real.exp_pos _
  positivity

/-- Witness for C7 at `S0 = T = 1`, `x = 0`. -/
theorem vega_nonneg_witness :
    0 ≤ vega 1 1 0 :=
  (vega_nonneg 1 1 0 one_pos one_pos).1

/-- C3: mode (a) of the solver: with `k = (p0 - exp (-rfr * maturity)) / sp`
for a nonzero spread value `sp`, the client present value is exactly zero
(hence within the 1e-6 tolerance) and the bank present value is
nonnegative. -/
theorem participation_rate_fair (sp : ℝ) (h : sp ≠ 0) :
    PV_client sp (k sp) = 0 ∧ 0 ≤ PV_bank sp (k sp) := by
  have hk : k sp * sp = p0 - Real.exp (-rfr * maturity) := by
    unfold k
    exact div_mul_cancel₀ _ h
  have hTm : T = maturity := rfl
  constructor
  · unfold PV_client
    rw [hTm, hk]
    ring
  · unfold PV_bank
    rw [hk]
    have := discount_gap_ge_fee
    linarith

/-- Witness for C3 at the concrete spread value `sp = 1`. -/
theorem participation_rate_fair_witness :
    PV_client 1 (k 1) = 0 ∧ 0 ≤ PV_bank 1 (k 1) :=
  participation_rate_fair 1 one_ne_zero

/-- C4: mode (b) of the solver: a strike is a converged root of the
function handed to the root-finder exactly when the call priced at that
strike equals the target OTM value `c_otm`, and the bank present value
of the resulting spread is nonnegative, for every volatility `s`. -/
theorem strike_solver_fair (s : ℝ) :
    (∀ K, convergedRoot s K ↔ BS_call 1 K rfr s maturity = c_otm s) ∧
      0 ≤ PV_bank_b s := by
  constructor
  · intro K
    unfold convergedRoot rootTarget
    exact sub_eq_zero
  · unfold PV_bank_b c_otm
    have hTm : T = maturity := rfl
    have := discount_gap_ge_fee
    rw [hTm] at this ⊢
    linarith

/-- Pointwise payoff identity: `max 0 (x - c) - max 0 (c - x) = x - c`. -/
lemma payoff_diff (c x : ℝ) : max 0 (x - c) - max 0 (c - x) = x - c := by
  rcases le_total x c with h | h
  · rw [max_eq_left (by linarith), max_eq_right (by linarith)]
    ring
  · rw [max_eq_right (by linarith), max_eq_left (by linarith)]
    ring

/-- Summed payoff identity over a sample list. -/
lemma sum_payoff_diff (c : ℝ) (l : List ℝ) :
    (l.map (fun x => max 0 (x - c))).sum - (l.map (fun x => max 0 (c - x))).sum
      = l.sum - l.length * c := by
  induction l with
  | nil => simp
  | cons a tl ih =>
    simp only [List.map_cons, List.sum_cons, List.length_cons]
    have hpt := payoff_diff c a
    have hcast : ((tl.length + 1 : ℕ) : ℝ) * c = (tl.length : ℝ) * c + c := by
      push_cast
      ring
    rw [hcast]
    linarith

/-- C10: exact sample-level parity of the Monte Carlo estimates: for every
nonempty sample of terminal prices,
`c_mc - p_mc = exp (-rfr * maturity) * (mean ST - last_close)`. -/
theorem mc_sample_parity (st : List ℝ) (h : st ≠ []) :
    c_mc st - p_mc st =
      Real.exp (-rfr * maturity) * (listMean st - last_close) := by
  have hn : (st.length : ℝ) ≠ 0 := by
    have hpos : 0 < st.length := List.length_pos.mpr h
    exact_mod_cast Nat.pos_iff_ne_zero.mp hpos
  have key := sum_payoff_diff last_close st
  unfold c_mc p_mc listMean call_payoffs put_payoffs
  rw [List.length_map, List.length_map]
  rw [div_mul_eq_mul_div, div_mul_eq_mul_div, div_sub_div_same]
  simp only [neg_mul]
  field_simp
  linear_combination Real.exp (-(rfr * maturity)) * key

/-- Witness for C10 on the one-element sample `[2]`. -/
theorem mc_sample_parity_witness :
    c_mc [2] - p_mc [2] =
      Real.exp (-rfr * maturity) * (listMean [2] - last_close) :=
  mc_sample_parity [2] (by simp)

/-- C9: the Monte Carlo pipeline is deterministic given the explicit seed:
its output does not depend on the ambient global random state, so two
evaluations at seed 42 on the same inputs coincide. -/
theorem mc_seed_deterministic (normalsOfSeed : ℕ → List ℝ)
    (g1 g2 : ℕ) (s : ℝ) :
    mcEstimates normalsOfSeed g1 42 s = mcEstimates normalsOfSeed g2 42 s :=
  rfl

/-- C8: the annualized volatility equals the population standard deviation
of the daily log returns times `sqrt 252`, the log returns are the first
differences of `log close`, and every downstream pricing step (closed-form
prices, Monte Carlo sample and prices, call spread, participation rate and
mode-(a) bank PV, target OTM value, root-finder target and mode-(b) bank
PV, vega) uses exactly this value. -/
theorem volatility_once (closes : List ℝ) :
    vol closes = popStd (logReturns closes) * Real.sqrt 252 ∧
    (∀ a b rest, logReturns (a :: b :: rest) =
      (Real.log b - Real.log a) :: logReturns (b :: rest)) ∧
    notebookPrices closes =
      BS last_close last_close rfr
        (popStd (logReturns closes) * Real.sqrt 252) maturity ∧
    (∀ eps, notebookST closes eps =
      ST (popStd (logReturns closes) * Real.sqrt 252) eps) ∧
    (∀ eps, notebookMC closes eps =
      (c_mc (ST (popStd (logReturns closes) * Real.sqrt 252) eps),
        p_mc (ST (popStd (logReturns closes) * Real.sqrt 252) eps))) ∧
    notebookCallSpread closes =
      call_spread (popStd (logReturns closes) * Real.sqrt 252) ∧
    notebook_k closes =
      k (call_spread (popStd (logReturns closes) * Real.sqrt 252)) ∧
    notebookPV_bank closes =
      PV_bank (call_spread (popStd (logReturns closes) * Real.sqrt 252))
        (k (call_spread (popStd (logReturns closes) * Real.sqrt 252))) ∧
    notebook_c_otm closes =
      c_otm (popStd (logReturns closes) * Real.sqrt 252) ∧
    (∀ K, notebookRootTarget closes K =
      rootTarget (popStd (logReturns closes) * Real.sqrt 252) K) ∧
    notebookPV_bank_b closes =
      PV_bank_b (popStd (logReturns closes) * Real.sqrt 252) ∧
    notebookVega closes =
      vega last_close maturity
        (greeks_d1 (popStd (logReturns closes) * Real.sqrt 252)) :=
  ⟨rfl, fun _ _ _ => rfl, rfl, fun _ => rfl, fun _ => rfl, rfl, rfl, rfl, rfl,
    fun _ => rfl, rfl, rfl⟩

/-- C6 counterexample: on a non-converged root-finder result the notebook
still produces the unconverged iterate (here `1.7`) instead of the error
the claim requires (`specStrike` returns none). -/
theorem rootfinder_error_counterexample :
    notebookStrike ⟨1.7, false⟩ = 1.7 ∧ specStrike ⟨1.7, false⟩ = none :=
  ⟨rfl, rfl⟩

/-- C6 amended: the notebook never inspects the convergence flag: for every
root-finder result, converged or not, the strike used is the returned
iterate `x`; there is no retry and no error report. -/
theorem rootfinder_no_error_check (res : OptimizeResult) :
    notebookStrike res = res.x :=
  rfl

end StructuredProduct
